import Mathlib

/-!
Shallow embedding of the two-zone thermal simulation in
src/temp_control.py, and verification of the specification claims.

Python floats are modelled by exact rationals; numpy arrays of
temperatures by lists / functions of the step index; the module-level
constants by a configuration record threaded through every definition.
The script's global numpy random state is modelled by an explicit
stream of standard-normal draws passed to the simulation.
-/

set_option maxRecDepth 100000

/-- Configuration: the module-level parameters of the script
(sections "1. System Parameters" and "2. Convection Parameters"). -/
structure Config where
  dt : ℚ
  total_time : ℚ
  rho_air : ℚ
  cp_air : ℚ
  vol_1 : ℚ
  vol_2 : ℚ
  T_amb : ℚ
  T_init : ℚ
  AC_power_max : ℚ
  AC_setpoint : ℚ
  Fan_power_heat : ℚ
  R_wall1 : ℚ
  R_wall2 : ℚ
  U_natural : ℚ
  flow_rate_cmh : ℚ
  deriving DecidableEq

/-- The concrete constant values assigned at module level in the script. -/
def defaultConfig : Config where
  dt := 1.0
  total_time := 90 * 60
  rho_air := 1.225
  cp_air := 1005.0
  vol_1 := 35.0
  vol_2 := 70.0
  T_amb := 30.0
  T_init := 28.0
  AC_power_max := 5200.0
  AC_setpoint := 16.0
  Fan_power_heat := 40.0
  R_wall1 := 0.020
  R_wall2 := 0.011
  U_natural := 35.0
  flow_rate_cmh := 200.0

/-- C1 = rho_air * vol_1 * cp_air (bedroom heat capacitance). -/
def C1 (cfg : Config) : ℚ := cfg.rho_air * cfg.vol_1 * cfg.cp_air

/-- C2 = rho_air * vol_2 * cp_air (living-room heat capacitance). -/
def C2 (cfg : Config) : ℚ := cfg.rho_air * cfg.vol_2 * cfg.cp_air

/-- m_dot = (flow_rate_cmh / 3600.0) * rho_air. -/
def m_dot (cfg : Config) : ℚ := cfg.flow_rate_cmh / 3600.0 * cfg.rho_air

/-- U_forced = m_dot * cp_air. -/
def U_forced (cfg : Config) : ℚ := m_dot cfg * cfg.cp_air

/-- time_steps = int(total_time / dt), as the Python value: int()
truncates toward zero, which is the floor for a nonnegative ratio and
the ceiling for a negative one.  This value can be negative. -/
def time_steps_int (cfg : Config) : ℤ :=
  if cfg.total_time / cfg.dt < 0 then ⌈cfg.total_time / cfg.dt⌉
  else ⌊cfg.total_time / cfg.dt⌋

/-- The number of array slots np.zeros(time_steps) allocates and the
loop iterates over.  Python raises ValueError from np.linspace /
np.zeros when time_steps is negative, before any step executes;
run_simulation_checked models that error path explicitly, so this
clamp to zero is only ever used on the nonnegative-horizon side. -/
def time_steps (cfg : Config) : ℕ := (time_steps_int cfg).toNat

/-- The AC regulator of the loop body (lines 101-107 of the script):
if t1 > AC_setpoint, err = t1 - AC_setpoint and
cool_out = min(AC_power_max, AC_power_max * err * 2.0), raised to 800
whenever it is below 800; otherwise cool_out = 0.0. -/
def cool_out (cfg : Config) (t1 : ℚ) : ℚ :=
  if cfg.AC_setpoint < t1 then
    let err := t1 - cfg.AC_setpoint
    let c := min cfg.AC_power_max (cfg.AC_power_max * err * 2.0)
    if c < 800 then 800 else c
  else 0.0

/-- q_wall1 = (T_amb - t1) / R_wall1. -/
def q_wall1 (cfg : Config) (t1 : ℚ) : ℚ := (cfg.T_amb - t1) / cfg.R_wall1

/-- q_wall2 = (T_amb - t2) / R_wall2. -/
def q_wall2 (cfg : Config) (t2 : ℚ) : ℚ := (cfg.T_amb - t2) / cfg.R_wall2

/-- q_cross = (t2 - t1) * coupling. -/
def q_cross (coupling t1 t2 : ℚ) : ℚ := (t2 - t1) * coupling

/-- Parameter selection of run_simulation: case_type == 1 picks
U_natural; any other case_type takes the else branch picking U_forced. -/
def coupling_of (cfg : Config) (case_type : ℤ) : ℚ :=
  if case_type = 1 then cfg.U_natural else U_forced cfg

/-- Fan waste heat selection: 0.0 for case_type == 1, Fan_power_heat on
the else branch. -/
def fan_heat_of (cfg : Config) (case_type : ℤ) : ℚ :=
  if case_type = 1 then 0.0 else cfg.Fan_power_heat

/-- One iteration of the Euler loop body (lines 87-117 of the script),
mapping the state (T1[k], T2[k]) to (T1[k+1], T2[k+1]). -/
def euler_step (cfg : Config) (case_type : ℤ) (s : ℚ × ℚ) : ℚ × ℚ :=
  let t1 := s.1
  let t2 := s.2
  let qw1 := q_wall1 cfg t1
  let qw2 := q_wall2 cfg t2
  let qc := q_cross (coupling_of cfg case_type) t1 t2
  let cool := cool_out cfg t1
  let dT1 := (qw1 + qc + fan_heat_of cfg case_type - cool) / C1 cfg * cfg.dt
  let dT2 := (qw2 - qc) / C2 cfg * cfg.dt
  (t1 + dT1, t2 + dT2)

/-- The state (T1[k], T2[k]) reached after k iterations of the loop,
starting from T1[0] = T2[0] = T_init. -/
def simT (cfg : Config) (case_type : ℤ) : ℕ → ℚ × ℚ
  | 0 => (cfg.T_init, cfg.T_init)
  | k + 1 => euler_step cfg case_type (simT cfg case_type k)

/-- The clean trajectory of the regulated zone (array T1). -/
def T1traj (cfg : Config) (case_type : ℤ) : List ℚ :=
  (List.range (time_steps cfg)).map fun k => (simT cfg case_type k).1

/-- The clean trajectory of the monitored zone (array T2 before noise). -/
def T2traj (cfg : Config) (case_type : ℤ) : List ℚ :=
  (List.range (time_steps cfg)).map fun k => (simT cfg case_type k).2

/-- One sample of np.random.normal(loc, scale): the location plus the
scale times a standard-normal draw z taken from the global random
state. -/
def normal_draw (z loc scale : ℚ) : ℚ := loc + scale * z

/-- noise = np.random.normal(0, 0.12, time_steps): the vector of
time_steps samples with mean 0 and standard deviation 0.12, where z is
the stream of standard-normal draws of the global random state. -/
def noise_traj (cfg : Config) (z : ℕ → ℚ) : List ℚ :=
  (List.range (time_steps cfg)).map fun k => normal_draw (z k) 0 0.12

/-- run_simulation(case_type, add_noise): returns the pair of arrays
(T1, T2); when add_noise is true, T2 = T2 + noise (numpy elementwise
vector addition), T1 is returned untouched. -/
def run_simulation (cfg : Config) (case_type : ℤ) (z : ℕ → ℚ)
    (add_noise : Bool) : List ℚ × List ℚ :=
  let T1 := T1traj cfg case_type
  let T2 := T2traj cfg case_type
  if add_noise then (T1, List.zipWith (· + ·) T2 (noise_traj cfg z)) else (T1, T2)

/-- The regulator output rescaled to integers: coolZ x d = d * cool_out
(x / d) for d > 0 (numerator of the output over the denominator d). -/
def coolZ (x d : ℤ) : ℤ :=
  if 16 * d < x then
    let c := min (5200 * d) (5200 * (x - 16 * d) * 2)
    if c < 800 * d then 800 * d else c
  else 0

/-- Integer-rescaled Euler iteration for case 2 of the default
configuration: the state (x, y, d) encodes T1 = x / d, T2 = y / d, and
one step multiplies the common denominator by 45502380 = 344715 * 132.
All coefficients below are the exact rescalings of euler_step with
C1 = 344715/8, C2 = 344715/4, 1/R_wall1 = 50, 1/R_wall2 = 1000/11,
U_forced = 3283/48 and fan heat 40.  simZ2_agree proves the encoding. -/
def simZ2 : ℕ → ℤ × ℤ × ℤ
  | 0 => (28, 28, 1)
  | k + 1 =>
    let s := simZ2 k
    let x := s.1
    let y := s.2.1
    let d := s.2.2
    (45502380 * x + 1056 * (50 * (30 * d - x) + 40 * d - coolZ x d) + 72226 * (y - x),
     45502380 * y + 48000 * (30 * d - y) - 36113 * (y - x),
     45502380 * d)

/-- Integer-rescaled Euler iteration for case 1 of the default
configuration, with per-step denominator factor 3791865 = 344715 * 11,
U_natural = 35 and no fan heat.  simZ1_agree proves the encoding. -/
def simZ1 : ℕ → ℤ × ℤ × ℤ
  | 0 => (28, 28, 1)
  | k + 1 =>
    let s := simZ1 k
    let x := s.1
    let y := s.2.1
    let d := s.2.2
    (3791865 * x + 88 * (50 * (30 * d - x) - coolZ x d) + 3080 * (y - x),
     3791865 * y + 4000 * (30 * d - y) - 1540 * (y - x),
     3791865 * d)

/-- The band the regulated zone settles into (case 2 run): T1 within
[16.05, 16.2] while the monitored zone stays within [24, 28]. -/
def inBox2 (s : ℚ × ℚ) : Prop :=
  16 + 1/20 ≤ s.1 ∧ s.1 ≤ 16 + 1/5 ∧ 24 ≤ s.2 ∧ s.2 ≤ 28

/-- The band the regulated zone settles into (case 1 run): T1 within
[16.05, 16.2] while the monitored zone stays within [25.9, 28]. -/
def inBox1 (s : ℚ × ℚ) : Prop :=
  16 + 1/20 ≤ s.1 ∧ s.1 ≤ 16 + 1/5 ∧ 25 + 9/10 ≤ s.2 ∧ s.2 ≤ 28

section Helpers

lemma C1_default : C1 defaultConfig = 344715 / 8 := by
  norm_num [C1, defaultConfig]

lemma C2_default : C2 defaultConfig = 344715 / 4 := by
  norm_num [C2, defaultConfig]

lemma U_forced_default : U_forced defaultConfig = 3283 / 48 := by
  norm_num [U_forced, m_dot, defaultConfig]

lemma q_wall1_default (t : ℚ) : q_wall1 defaultConfig t = 50 * (30 - t) := by
  simp only [q_wall1, defaultConfig]
  norm_num
  ring

lemma q_wall2_default (t : ℚ) : q_wall2 defaultConfig t = (1000 / 11) * (30 - t) := by
  simp only [q_wall2, defaultConfig]
  norm_num
  ring

lemma time_steps_int_eq (cfg : Config) (n : ℕ)
    (h : cfg.total_time / cfg.dt = ((n : ℤ) : ℚ)) : time_steps_int cfg = n := by
  rw [time_steps_int, h, if_neg (not_lt.mpr (by positivity)), Int.floor_intCast]

lemma time_steps_default : time_steps defaultConfig = 5400 := by
  rw [time_steps, time_steps_int_eq defaultConfig 5400 (by norm_num [defaultConfig])]
  rfl

lemma cool_out_eq (t : ℚ) :
    cool_out defaultConfig t =
      if t ≤ 16 then 0 else max (min 5200 (5200 * 2 * (t - 16))) 800 := by
  have hsp : defaultConfig.AC_setpoint = 16 := by norm_num [defaultConfig]
  have hpm : defaultConfig.AC_power_max = 5200 := by norm_num [defaultConfig]
  simp only [cool_out, hsp, hpm]
  by_cases h : (16 : ℚ) < t
  · rw [if_pos h, if_neg (not_le.mpr h)]
    have harr : (5200 : ℚ) * (t - 16) * 2.0 = 5200 * 2 * (t - 16) := by ring
    rw [harr]
    by_cases hc : min (5200 : ℚ) (5200 * 2 * (t - 16)) < 800
    · rw [if_pos hc, max_eq_right (le_of_lt hc)]
    · rw [if_neg hc, max_eq_left (not_lt.mp hc)]
  · rw [if_neg h, if_pos (not_lt.mp h)]
    norm_num

lemma cool_out_idle (t : ℚ) (h : t ≤ 16) : cool_out defaultConfig t = 0 := by
  rw [cool_out_eq, if_pos h]

lemma cool_out_active (t : ℚ) (h : 16 < t) :
    800 ≤ cool_out defaultConfig t ∧ cool_out defaultConfig t ≤ 5200 := by
  rw [cool_out_eq, if_neg (not_le.mpr h)]
  constructor
  · exact le_max_right _ _
  · exact max_le (le_trans (min_le_left _ _) le_rfl) (by norm_num)

lemma cool_out_cases (t : ℚ) (h1 : 16 < t) (h2 : t ≤ 16 + 1/5) :
    (t < 16 + 1/13 ∧ cool_out defaultConfig t = 800) ∨
    (16 + 1/13 ≤ t ∧ cool_out defaultConfig t = 5200 * 2 * (t - 16)) := by
  rw [cool_out_eq, if_neg (not_le.mpr h1)]
  have hmin : min (5200 : ℚ) (5200 * 2 * (t - 16)) = 5200 * 2 * (t - 16) :=
    min_eq_right (by linarith)
  rw [hmin]
  rcases lt_or_le t (16 + 1/13) with hf | hf
  · left
    exact ⟨hf, max_eq_right (by linarith)⟩
  · right
    exact ⟨hf, max_eq_left (by linarith)⟩

lemma coupling_of_default_ne (ct : ℤ) (h : ct ≠ 1) :
    coupling_of defaultConfig ct = 3283 / 48 := by
  rw [coupling_of, if_neg h, U_forced_default]

lemma fan_heat_of_default_ne (ct : ℤ) (h : ct ≠ 1) :
    fan_heat_of defaultConfig ct = 40 := by
  rw [fan_heat_of, if_neg h]
  norm_num [defaultConfig]

lemma coupling_of_default_one : coupling_of defaultConfig 1 = 35 := by
  rw [coupling_of, if_pos rfl]
  norm_num [defaultConfig]

lemma fan_heat_of_default_one : fan_heat_of defaultConfig 1 = 0 := by
  rw [fan_heat_of, if_pos rfl]
  norm_num

lemma euler_step2_eq (s : ℚ × ℚ) :
    euler_step defaultConfig 2 s =
      (s.1 + (50 * (30 - s.1) + (s.2 - s.1) * (3283/48) + 40
          - cool_out defaultConfig s.1) * (8/344715),
       s.2 + ((1000/11) * (30 - s.2) - (s.2 - s.1) * (3283/48)) * (4/344715)) := by
  have hdt : defaultConfig.dt = 1 := by norm_num [defaultConfig]
  simp only [euler_step, q_wall1_default, q_wall2_default, q_cross,
    coupling_of_default_ne 2 (by norm_num), fan_heat_of_default_ne 2 (by norm_num),
    C1_default, C2_default, hdt, Prod.mk.injEq]
  constructor <;> ring

lemma euler_step1_eq (s : ℚ × ℚ) :
    euler_step defaultConfig 1 s =
      (s.1 + (50 * (30 - s.1) + (s.2 - s.1) * 35
          - cool_out defaultConfig s.1) * (8/344715),
       s.2 + ((1000/11) * (30 - s.2) - (s.2 - s.1) * 35) * (4/344715)) := by
  have hdt : defaultConfig.dt = 1 := by norm_num [defaultConfig]
  simp only [euler_step, q_wall1_default, q_wall2_default, q_cross,
    coupling_of_default_one, fan_heat_of_default_one,
    C1_default, C2_default, hdt, Prod.mk.injEq]
  constructor <;> ring

lemma step_box2 (s : ℚ × ℚ) (h : inBox2 s) : inBox2 (euler_step defaultConfig 2 s) := by
  obtain ⟨h1, h2, h3, h4⟩ := h
  have h16 : (16 : ℚ) < s.1 := by linarith
  rw [inBox2, euler_step2_eq]
  dsimp only
  rcases cool_out_cases s.1 h16 h2 with ⟨hlt, hc⟩ | ⟨hge, hc⟩ <;>
    rw [hc] <;>
    exact ⟨by linarith, by linarith, by linarith, by linarith⟩

lemma coolZ_spec (x d : ℤ) (hd : 0 < d) :
    cool_out defaultConfig ((x : ℚ) / (d : ℚ)) = ((coolZ x d : ℤ) : ℚ) / (d : ℚ) := by
  have hdq : (0 : ℚ) < (d : ℚ) := by exact_mod_cast hd
  have hdne : (d : ℚ) ≠ 0 := ne_of_gt hdq
  rw [cool_out_eq, coolZ]
  by_cases hx : 16 * d < x
  · have hxq : (16 : ℚ) < (x : ℚ) / (d : ℚ) := by
      rw [lt_div_iff₀ hdq]
      exact_mod_cast hx
    rw [if_neg (not_le.mpr hxq), if_pos hx]
    have e1 : (5200 : ℚ) * 2 * ((x : ℚ) / (d : ℚ) - 16)
        = ((5200 * (x - 16 * d) * 2 : ℤ) : ℚ) / (d : ℚ) := by
      push_cast
      field_simp
      ring
    have e2 : (5200 : ℚ) = ((5200 * d : ℤ) : ℚ) / (d : ℚ) := by
      push_cast
      field_simp
    have e3 : (800 : ℚ) = ((800 * d : ℤ) : ℚ) / (d : ℚ) := by
      push_cast
      field_simp
    rw [e1, e2, e3, min_div_div_right (le_of_lt hdq), ← Int.cast_min,
      max_div_div_right (le_of_lt hdq), ← Int.cast_max]
    congr 1
    rcases lt_or_le (min (5200 * d) (5200 * (x - 16 * d) * 2)) (800 * d) with hm | hm
    · rw [if_pos hm, max_eq_right (le_of_lt hm)]
    · rw [if_neg (not_lt.mpr hm), max_eq_left hm]
  · have hxq : (x : ℚ) / (d : ℚ) ≤ 16 := by
      rw [div_le_iff₀ hdq]
      have : x ≤ 16 * d := not_lt.mp hx
      exact_mod_cast this
    rw [if_pos hxq, if_neg hx]
    norm_num

lemma simZ2_agree (k : ℕ) : 0 < (simZ2 k).2.2 ∧
    (simT defaultConfig 2 k).1 = ((simZ2 k).1 : ℚ) / ((simZ2 k).2.2 : ℚ) ∧
    (simT defaultConfig 2 k).2 = ((simZ2 k).2.1 : ℚ) / ((simZ2 k).2.2 : ℚ) := by
  induction k with
  | zero =>
    refine ⟨one_pos, ?_, ?_⟩ <;> norm_num [simT, simZ2, defaultConfig]
  | succ k ih =>
    obtain ⟨hd, h1, h2⟩ := ih
    have hdq : (0 : ℚ) < ((simZ2 k).2.2 : ℚ) := by exact_mod_cast hd
    have hdne : ((simZ2 k).2.2 : ℚ) ≠ 0 := ne_of_gt hdq
    have hz : simZ2 (k + 1) =
        (45502380 * (simZ2 k).1
            + 1056 * (50 * (30 * (simZ2 k).2.2 - (simZ2 k).1)
              + 40 * (simZ2 k).2.2 - coolZ (simZ2 k).1 (simZ2 k).2.2)
            + 72226 * ((simZ2 k).2.1 - (simZ2 k).1),
         45502380 * (simZ2 k).2.1 + 48000 * (30 * (simZ2 k).2.2 - (simZ2 k).2.1)
            - 36113 * ((simZ2 k).2.1 - (simZ2 k).1),
         45502380 * (simZ2 k).2.2) := rfl
    have hs : simT defaultConfig 2 (k + 1) = euler_step defaultConfig 2 (simT defaultConfig 2 k) := rfl
    refine ⟨?_, ?_, ?_⟩
    · rw [hz]
      exact mul_pos (by norm_num) hd
    · rw [hs, euler_step2_eq, hz, h1, h2, coolZ_spec _ _ hd]
      dsimp only
      push_cast
      field_simp
      ring
    · rw [hs, euler_step2_eq, hz, h1, h2]
      dsimp only
      push_cast
      field_simp
      ring

lemma simZ1_agree (k : ℕ) : 0 < (simZ1 k).2.2 ∧
    (simT defaultConfig 1 k).1 = ((simZ1 k).1 : ℚ) / ((simZ1 k).2.2 : ℚ) ∧
    (simT defaultConfig 1 k).2 = ((simZ1 k).2.1 : ℚ) / ((simZ1 k).2.2 : ℚ) := by
  induction k with
  | zero =>
    refine ⟨one_pos, ?_, ?_⟩ <;> norm_num [simT, simZ1, defaultConfig]
  | succ k ih =>
    obtain ⟨hd, h1, h2⟩ := ih
    have hdq : (0 : ℚ) < ((simZ1 k).2.2 : ℚ) := by exact_mod_cast hd
    have hdne : ((simZ1 k).2.2 : ℚ) ≠ 0 := ne_of_gt hdq
    have hz : simZ1 (k + 1) =
        (3791865 * (simZ1 k).1
            + 88 * (50 * (30 * (simZ1 k).2.2 - (simZ1 k).1)
              - coolZ (simZ1 k).1 (simZ1 k).2.2)
            + 3080 * ((simZ1 k).2.1 - (simZ1 k).1),
         3791865 * (simZ1 k).2.1 + 4000 * (30 * (simZ1 k).2.2 - (simZ1 k).2.1)
            - 1540 * ((simZ1 k).2.1 - (simZ1 k).1),
         3791865 * (simZ1 k).2.2) := rfl
    have hs : simT defaultConfig 1 (k + 1) = euler_step defaultConfig 1 (simT defaultConfig 1 k) := rfl
    refine ⟨?_, ?_, ?_⟩
    · rw [hz]
      exact mul_pos (by norm_num) hd
    · rw [hs, euler_step1_eq, hz, h1, h2, coolZ_spec _ _ hd]
      dsimp only
      push_cast
      field_simp
      ring
    · rw [hs, euler_step1_eq, hz, h1, h2]
      dsimp only
      push_cast
      field_simp
      ring

lemma step_box1 (s : ℚ × ℚ) (h : inBox1 s) : inBox1 (euler_step defaultConfig 1 s) := by
  obtain ⟨h1, h2, h3, h4⟩ := h
  have h16 : (16 : ℚ) < s.1 := by linarith
  rw [inBox1, euler_step1_eq]
  dsimp only
  rcases cool_out_cases s.1 h16 h2 with ⟨hlt, hc⟩ | ⟨hge, hc⟩ <;>
    rw [hc] <;>
    exact ⟨by linarith, by linarith, by linarith, by linarith⟩

lemma base2_150 : inBox2 (simT defaultConfig 2 150) := by
  obtain ⟨hd, h1, h2⟩ := simZ2_agree 150
  have hdq : (0 : ℚ) < ((simZ2 150).2.2 : ℚ) := by exact_mod_cast hd
  have hz : 321 * (simZ2 150).2.2 ≤ 20 * (simZ2 150).1 ∧
      5 * (simZ2 150).1 ≤ 81 * (simZ2 150).2.2 ∧
      24 * (simZ2 150).2.2 ≤ (simZ2 150).2.1 ∧
      (simZ2 150).2.1 ≤ 28 * (simZ2 150).2.2 := by decide
  obtain ⟨z1, z2, z3, z4⟩ := hz
  have q1 : (321 : ℚ) * ((simZ2 150).2.2 : ℚ) ≤ 20 * ((simZ2 150).1 : ℚ) := by
    exact_mod_cast z1
  have q2 : (5 : ℚ) * ((simZ2 150).1 : ℚ) ≤ 81 * ((simZ2 150).2.2 : ℚ) := by
    exact_mod_cast z2
  have q3 : (24 : ℚ) * ((simZ2 150).2.2 : ℚ) ≤ ((simZ2 150).2.1 : ℚ) := by
    exact_mod_cast z3
  have q4 : ((simZ2 150).2.1 : ℚ) ≤ 28 * ((simZ2 150).2.2 : ℚ) := by
    exact_mod_cast z4
  refine ⟨?_, ?_, ?_, ?_⟩
  · rw [h1, le_div_iff₀ hdq]
    linarith
  · rw [h1, div_le_iff₀ hdq]
    linarith
  · rw [h2, le_div_iff₀ hdq]
    linarith
  · rw [h2, div_le_iff₀ hdq]
    linarith

lemma base1_150 : inBox1 (simT defaultConfig 1 150) := by
  obtain ⟨hd, h1, h2⟩ := simZ1_agree 150
  have hdq : (0 : ℚ) < ((simZ1 150).2.2 : ℚ) := by exact_mod_cast hd
  have hz : 321 * (simZ1 150).2.2 ≤ 20 * (simZ1 150).1 ∧
      5 * (simZ1 150).1 ≤ 81 * (simZ1 150).2.2 ∧
      259 * (simZ1 150).2.2 ≤ 10 * (simZ1 150).2.1 ∧
      (simZ1 150).2.1 ≤ 28 * (simZ1 150).2.2 := by decide
  obtain ⟨z1, z2, z3, z4⟩ := hz
  have q1 : (321 : ℚ) * ((simZ1 150).2.2 : ℚ) ≤ 20 * ((simZ1 150).1 : ℚ) := by
    exact_mod_cast z1
  have q2 : (5 : ℚ) * ((simZ1 150).1 : ℚ) ≤ 81 * ((simZ1 150).2.2 : ℚ) := by
    exact_mod_cast z2
  have q3 : (259 : ℚ) * ((simZ1 150).2.2 : ℚ) ≤ 10 * ((simZ1 150).2.1 : ℚ) := by
    exact_mod_cast z3
  have q4 : ((simZ1 150).2.1 : ℚ) ≤ 28 * ((simZ1 150).2.2 : ℚ) := by
    exact_mod_cast z4
  refine ⟨?_, ?_, ?_, ?_⟩
  · rw [h1, le_div_iff₀ hdq]
    linarith
  · rw [h1, div_le_iff₀ hdq]
    linarith
  · rw [h2, le_div_iff₀ hdq]
    linarith
  · rw [h2, div_le_iff₀ hdq]
    linarith

lemma box2_from (n : ℕ) : inBox2 (simT defaultConfig 2 (150 + n)) := by
  induction n with
  | zero => exact base2_150
  | succ n ih => exact step_box2 _ ih

lemma box1_from (n : ℕ) : inBox1 (simT defaultConfig 1 (150 + n)) := by
  induction n with
  | zero => exact base1_150
  | succ n ih => exact step_box1 _ ih

lemma box2_ge (k : ℕ) (h : 150 ≤ k) : inBox2 (simT defaultConfig 2 k) := by
  obtain ⟨n, rfl⟩ := Nat.exists_eq_add_of_le h
  exact box2_from n

lemma box1_ge (k : ℕ) (h : 150 ≤ k) : inBox1 (simT defaultConfig 1 k) := by
  obtain ⟨n, rfl⟩ := Nat.exists_eq_add_of_le h
  exact box1_from n

end Helpers

/-! ## Claim theorems -/

/-- Claim C1: for every regulated-zone temperature t1, the regulator's
cooling output is 0 if t1 is at or below the setpoint 16.0, and
otherwise equals max(min(5200, 5200 * 2.0 * (t1 - 16)), 800); the
discontinuous jump from 0 to at least 800 at the setpoint is the exact
formula, not a smoothed one. -/
theorem C1_regulator_formula (t1 : ℚ) :
    cool_out defaultConfig t1 =
      if t1 ≤ 16 then 0 else max (min 5200 (5200 * 2 * (t1 - 16))) 800 :=
  cool_out_eq t1

/-- Claim C3: at every step k of either simulation run, the cooling
output computed from T1[k] is exactly 0 when T1[k] is at or below the
setpoint, and otherwise lies between 800 and 5200. -/
theorem C3_cooling_invariant (case_type : ℤ) (k : ℕ) :
    ((simT defaultConfig case_type k).1 ≤ 16 ∧
      cool_out defaultConfig (simT defaultConfig case_type k).1 = 0) ∨
    (16 < (simT defaultConfig case_type k).1 ∧
      800 ≤ cool_out defaultConfig (simT defaultConfig case_type k).1 ∧
      cool_out defaultConfig (simT defaultConfig case_type k).1 ≤ 5200) := by
  rcases le_or_lt (simT defaultConfig case_type k).1 16 with h | h
  · exact Or.inl ⟨h, cool_out_idle _ h⟩
  · exact Or.inr ⟨h, (cool_out_active _ h).1, (cool_out_active _ h).2⟩

/-- Claim C4: the coupling computation is a pure function of the
current temperatures returning q_wall1 = (30 - t1) / 0.020,
q_wall2 = (30 - t2) / 0.011 and q_cross = (t2 - t1) * coupling, and a
positive q_cross corresponds to heat flowing from zone 2 into zone 1
(it is positive exactly when t2 exceeds t1 for positive conductance). -/
theorem C4_coupling_pure (t1 t2 c : ℚ) :
    q_wall1 defaultConfig t1 = (30 - t1) / 0.020 ∧
    q_wall2 defaultConfig t2 = (30 - t2) / 0.011 ∧
    q_cross c t1 t2 = (t2 - t1) * c ∧
    (0 < c → t1 < t2 → 0 < q_cross c t1 t2) := by
  refine ⟨by norm_num [q_wall1, defaultConfig], by norm_num [q_wall2, defaultConfig], rfl, ?_⟩
  intro hc hlt
  rw [q_cross]
  exact mul_pos (by linarith) hc

/-- Witness for C4 at t1 = 20, t2 = 25, coupling 35. -/
theorem C4_witness : 0 < q_cross 35 20 25 :=
  (C4_coupling_pure 20 25 35).2.2.2 (by norm_num) (by norm_num)

/-- Claim C9: run_simulation treats every case selector other than 1 as
the forced-exchange case (coupling U_forced, fan heat 40.0), so its
trajectories coincide with case 2 at every step, while case 1 selects
U_natural with zero auxiliary heat. -/
theorem C9_case_selector :
    (∀ case_type : ℤ, case_type ≠ 1 →
      coupling_of defaultConfig case_type = U_forced defaultConfig ∧
      fan_heat_of defaultConfig case_type = 40 ∧
      ∀ k, simT defaultConfig case_type k = simT defaultConfig 2 k) ∧
    coupling_of defaultConfig 1 = defaultConfig.U_natural ∧
    fan_heat_of defaultConfig 1 = 0 := by
  refine ⟨?_, if_pos rfl, fan_heat_of_default_one⟩
  intro ct h
  refine ⟨by rw [coupling_of, if_neg h], fan_heat_of_default_ne ct h, ?_⟩
  intro k
  induction k with
  | zero => rfl
  | succ k ih =>
    show euler_step defaultConfig ct (simT defaultConfig ct k)
        = euler_step defaultConfig 2 (simT defaultConfig 2 k)
    rw [ih]
    simp only [euler_step, coupling_of_default_ne ct h,
      coupling_of_default_ne 2 (by norm_num), fan_heat_of_default_ne ct h,
      fan_heat_of_default_ne 2 (by norm_num)]

/-- Witness for C9 at case_type = 7, step 3. -/
theorem C9_witness : simT defaultConfig 7 3 = simT defaultConfig 2 3 :=
  (C9_case_selector.1 7 (by norm_num)).2.2 3

/-- Claim C10: the regulator output is monotone nondecreasing in the
regulated temperature, and every output lies in the set consisting of 0
together with the interval from 800 to 5200. -/
theorem C10_monotone_range :
    (∀ a b : ℚ, a ≤ b → cool_out defaultConfig a ≤ cool_out defaultConfig b) ∧
    (∀ t : ℚ, cool_out defaultConfig t = 0 ∨
      (800 ≤ cool_out defaultConfig t ∧ cool_out defaultConfig t ≤ 5200)) := by
  constructor
  · intro a b hab
    rw [cool_out_eq, cool_out_eq]
    rcases le_or_lt b 16 with hb | hb
    · rw [if_pos (le_trans hab hb), if_pos hb]
    · rw [if_neg (not_le.mpr hb)]
      rcases le_or_lt a 16 with ha | ha
      · rw [if_pos ha]
        exact le_trans (by norm_num) (le_max_right _ _)
      · rw [if_neg (not_le.mpr ha)]
        exact max_le_max (min_le_min le_rfl (by linarith)) le_rfl
  · intro t
    rcases le_or_lt t 16 with h | h
    · exact Or.inl (cool_out_idle t h)
    · exact Or.inr (cool_out_active t h)

/-- Witness for C10 at the pair 17 and 18. -/
theorem C10_witness :
    cool_out defaultConfig 17 ≤ cool_out defaultConfig 18 ∧
    (cool_out defaultConfig 17 = 0 ∨
      (800 ≤ cool_out defaultConfig 17 ∧ cool_out defaultConfig 17 ≤ 5200)) :=
  ⟨C10_monotone_range.1 17 18 (by norm_num), C10_monotone_range.2 17⟩

/-- Claim C2: for either case the integrator produces trajectories of
length N = round(totalDuration / dt) = 5400, initializes both zones to
T_init at step 0, and advances each step k up to N - 2 by exactly one
forward-Euler step with the stated derivative formulas. -/
theorem C2_integrator (case_type : ℤ) :
    (T1traj defaultConfig case_type).length = 5400 ∧
    (T2traj defaultConfig case_type).length = 5400 ∧
    (time_steps defaultConfig : ℤ) = round (defaultConfig.total_time / defaultConfig.dt) ∧
    simT defaultConfig case_type 0 = (defaultConfig.T_init, defaultConfig.T_init) ∧
    ∀ k : ℕ, k ≤ 5400 - 2 →
      (simT defaultConfig case_type (k + 1)).1 =
        (simT defaultConfig case_type k).1 +
          (q_wall1 defaultConfig (simT defaultConfig case_type k).1 +
            q_cross (coupling_of defaultConfig case_type)
              (simT defaultConfig case_type k).1 (simT defaultConfig case_type k).2 +
            fan_heat_of defaultConfig case_type -
            cool_out defaultConfig (simT defaultConfig case_type k).1)
            / C1 defaultConfig * defaultConfig.dt ∧
      (simT defaultConfig case_type (k + 1)).2 =
        (simT defaultConfig case_type k).2 +
          (q_wall2 defaultConfig (simT defaultConfig case_type k).2 -
            q_cross (coupling_of defaultConfig case_type)
              (simT defaultConfig case_type k).1 (simT defaultConfig case_type k).2)
            / C2 defaultConfig * defaultConfig.dt := by
  refine ⟨?_, ?_, ?_, rfl, ?_⟩
  · rw [T1traj, List.length_map, List.length_range, time_steps_default]
  · rw [T2traj, List.length_map, List.length_range, time_steps_default]
  · rw [time_steps_default,
      show defaultConfig.total_time / defaultConfig.dt = ((5400 : ℤ) : ℚ) by
        norm_num [defaultConfig],
      round_intCast]
    norm_num
  · intro k _
    exact ⟨rfl, rfl⟩

/-- Witness for C2 at case 1, step 0. -/
theorem C2_witness :
    (simT defaultConfig 1 1).1 =
      (simT defaultConfig 1 0).1 +
        (q_wall1 defaultConfig (simT defaultConfig 1 0).1 +
          q_cross (coupling_of defaultConfig 1)
            (simT defaultConfig 1 0).1 (simT defaultConfig 1 0).2 +
          fan_heat_of defaultConfig 1 -
          cool_out defaultConfig (simT defaultConfig 1 0).1)
          / C1 defaultConfig * defaultConfig.dt :=
  ((C2_integrator 1).2.2.2.2 0 (by norm_num)).1

/-- Claim C6: with noise disabled the simulation output is independent
of the random stream, so two runs with identical configuration agree;
with the randomness source made explicit, two noisy runs driven by the
same stream (same seed of the global generator) also agree. -/
theorem C6_determinism (cfg : Config) (case_type : ℤ) (z1 z2 : ℕ → ℚ) :
    run_simulation cfg case_type z1 false = run_simulation cfg case_type z2 false ∧
    (z1 = z2 →
      run_simulation cfg case_type z1 true = run_simulation cfg case_type z2 true) := by
  constructor
  · rfl
  · intro h
    rw [h]

/-- Witness for C6 with two different streams (noise off) and one
shared stream (noise on). -/
theorem C6_witness :
    run_simulation defaultConfig 1 (fun _ => 0) false
      = run_simulation defaultConfig 1 (fun _ => 1) false ∧
    run_simulation defaultConfig 2 (fun _ => 1/2) true
      = run_simulation defaultConfig 2 (fun _ => 1/2) true :=
  ⟨(C6_determinism defaultConfig 1 _ _).1, (C6_determinism defaultConfig 2 _ _).2 rfl⟩

/-- Claim C7: with add_noise true the returned zone-2 trajectory equals
the clean zone-2 trajectory plus one additive perturbation
normal_draw(z k, 0, 0.12) per sample, has the same length as the clean
trajectory, and the zone-1 trajectory is exactly the clean control-loop
signal (zone 1 is never noised). -/
theorem C7_noise_frame (cfg : Config) (case_type : ℤ) (z : ℕ → ℚ) :
    (run_simulation cfg case_type z true).1 = (run_simulation cfg case_type z false).1 ∧
    (run_simulation cfg case_type z true).2.length
      = (run_simulation cfg case_type z false).2.length ∧
    ∀ k, k < time_steps cfg →
      (run_simulation cfg case_type z true).2.getD k 0
        = (run_simulation cfg case_type z false).2.getD k 0
          + normal_draw (z k) 0 0.12 := by
  have htrue : run_simulation cfg case_type z true
      = (T1traj cfg case_type,
         List.zipWith (· + ·) (T2traj cfg case_type) (noise_traj cfg z)) := rfl
  have hfalse : run_simulation cfg case_type z false
      = (T1traj cfg case_type, T2traj cfg case_type) := rfl
  have hlen2 : (T2traj cfg case_type).length = time_steps cfg := by
    rw [T2traj, List.length_map, List.length_range]
  have hlenn : (noise_traj cfg z).length = time_steps cfg := by
    rw [noise_traj, List.length_map, List.length_range]
  have hzip : (List.zipWith (· + ·) (T2traj cfg case_type) (noise_traj cfg z)).length
      = time_steps cfg := by
    rw [List.length_zipWith, hlen2, hlenn, min_self]
  rw [htrue, hfalse]
  refine ⟨rfl, by rw [hzip, hlen2], ?_⟩
  intro k hk
  dsimp only
  rw [List.getD_eq_getElem _ 0 (by rw [hzip]; exact hk),
    List.getD_eq_getElem _ 0 (by rw [hlen2]; exact hk),
    List.getElem_zipWith]
  congr 1
  simp only [noise_traj, List.getElem_map, List.getElem_range]

/-- Witness for C7 at the default configuration, case 2, step 0. -/
theorem C7_witness :
    (run_simulation defaultConfig 2 (fun _ => 1/3) true).2.getD 0 0
      = (run_simulation defaultConfig 2 (fun _ => 1/3) false).2.getD 0 0
        + normal_draw (1/3) 0 0.12 :=
  (C7_noise_frame defaultConfig 2 (fun _ => 1/3)).2.2 0
    (by rw [time_steps_default]; norm_num)

/-- Claim C8 (amended): in both runs the regulated zone-1 trajectory
falls to within 0.2 °C of the 16.0 °C setpoint well before step 1000
(by step 150) and remains in the band [16.05 °C, 16.2 °C] for every
remaining step of the run: the proportional regulator settles about
0.10 to 0.15 °C above the setpoint and never comes within 0.01 °C of
it. -/
theorem C8_band (k : ℕ) (h150 : 150 ≤ k) (_hN : k < 5400) :
    (16 + 1/20 ≤ (simT defaultConfig 2 k).1 ∧ (simT defaultConfig 2 k).1 ≤ 16 + 1/5) ∧
    (16 + 1/20 ≤ (simT defaultConfig 1 k).1 ∧ (simT defaultConfig 1 k).1 ≤ 16 + 1/5) := by
  have h2 := box2_ge k h150
  have h1 := box1_ge k h150
  rw [inBox2] at h2
  rw [inBox1] at h1
  exact ⟨⟨h2.1, h2.2.1⟩, ⟨h1.1, h1.2.1⟩⟩

/-- Witness for C8 at step 200. -/
theorem C8_band_witness :
    (16 + 1/20 ≤ (simT defaultConfig 2 200).1 ∧ (simT defaultConfig 2 200).1 ≤ 16 + 1/5) ∧
    (16 + 1/20 ≤ (simT defaultConfig 1 200).1 ∧ (simT defaultConfig 1 200).1 ≤ 16 + 1/5) :=
  C8_band 200 (by norm_num) (by norm_num)

/-- Counterexample to claim C8 as stated: at step 2000 (after any
claimed entry into the 0.01 °C band before step 1000) the regulated
zone-1 temperature of both runs is farther than 0.01 °C from 16.0 °C,
so the trajectory neither reaches nor remains within 0.01 °C of the
setpoint. -/
theorem C8_counterexample :
    1/100 < |(simT defaultConfig 2 2000).1 - 16| ∧
    1/100 < |(simT defaultConfig 1 2000).1 - 16| := by
  have h2 := box2_ge 2000 (by norm_num)
  have h1 := box1_ge 2000 (by norm_num)
  rw [inBox2] at h2
  rw [inBox1] at h1
  constructor
  · rw [abs_of_nonneg (by linarith [h2.1])]
    linarith [h2.1]
  · rw [abs_of_nonneg (by linarith [h1.1])]
    linarith [h1.1]
